import Mathlib

set_option maxRecDepth 16384

/-
Verification of the meribel-api avalanche/weather aggregation server
(src/server.js).  The source file contains three successive revisions of
the server; the shallow embedding below follows the final revision
(the one defining `generateElevationBands`, `generateProblems`,
`getFallbackBulletin`, the extended-forecast endpoint, ...) and, where a
claim cites them, the heuristic scraping functions of the earlier
revisions (`scrapeMeteoFranceWeb`, `extractOverallRisk`).

Modelling conventions:
- JS numbers used as risk levels / timestamps are embedded as `Int`;
  the forecast quantities (snowfall, wind, temperature), which arrive as
  floating point values from the upstream API, are embedded as `ℚ`.
- `Date.now()` is an explicit `now : Int` parameter; `toISOString` is
  abstracted as the timestamp itself and `toLocaleDateString` as
  `toString` of the underlying instant (no claim depends on the textual
  date format).
- A JS cache entry `{ data, timestamp }` is `CacheEntry`; JS truthiness
  in `isCacheValid` (`!data || !timestamp`) treats both `null` and the
  number `0` as absent, which the embedding reproduces.
- Each HTTP handler is a pure transition function from the cache state,
  the current time and the outcome of its outbound fetch (success with
  the parsed upstream document, or failure) to a response plus the new
  cache state, mirroring the `try`/`catch` structure of the handler.
-/

/-- One entry of the elevation-band list of a bulletin. -/
structure ElevationBand where
  elevation : String
  risk : Int
  aspects : List String
  description : String
deriving DecidableEq

/-- One avalanche-problem entry. -/
structure Problem where
  type : String
  severity : String
  distribution : String
  sensitivity : String
  icon : String
deriving DecidableEq

/-- The snowpack narrative of a bulletin. -/
structure Snowpack where
  recentSnow : String
  totalDepth : String
  quality : String
deriving DecidableEq

/-- The weather narrative of a bulletin. -/
structure WeatherNarrative where
  forecast : String
  temperature : String
  wind : String
deriving DecidableEq

/-- The avalanche-bulletin payload of the final revision: the fields set
by the XML branch of `/api/avalanche/vanoise` and by
`getFallbackBulletin`.  `note` and `error` are optional. -/
structure Bulletin where
  massif : String
  updateTime : Int
  validUntil : String
  overallRisk : Int
  summary : String
  elevationBands : List ElevationBand
  problems : List Problem
  snowpack : Snowpack
  weather : WeatherNarrative
  tendency : String
  source : String
  dataSource : String
  note : Option String
  error : Option String
deriving DecidableEq

/-- One alert of the warnings resource. -/
structure Alert where
  type : String
  level : String
  levelNumber : Int
  title : String
  description : String
deriving DecidableEq

/-- The `/api/warnings/savoie` payload of the final revision. -/
structure WarningsResource where
  department : String
  updateTime : Int
  alerts : List Alert
  source : String
  note : Option String
deriving DecidableEq

/-- A cache slot `{ data: ..., timestamp: ... }`; `none` models JS `null`. -/
structure CacheEntry (α : Type) where
  data : Option α
  timestamp : Option Int
deriving DecidableEq

/-- `const CACHE_DURATION = 6 * 60 * 60 * 1000;` (milliseconds). -/
def CACHE_DURATION : Int := 6 * 60 * 60 * 1000

/-- `isCacheValid(cacheEntry)`: false when `!data || !timestamp`
(in JS this is true for `null` and for the number `0`), otherwise
`Date.now() - timestamp < CACHE_DURATION`. -/
def isCacheValid {α : Type} (c : CacheEntry α) (now : Int) : Bool :=
  match c.data, c.timestamp with
  | some _, some t => (t != 0) && decide (now - t < CACHE_DURATION)
  | _, _ => false

/-- The cache-check head of each handler:
`if (isCacheValid(cache.x)) return res.json(cache.x.data);`
packaged as the payload returned on a hit. -/
def cacheHit {α : Type} (c : CacheEntry α) (now : Int) : Option α :=
  if isCacheValid c now then c.data else none

/-- `getRiskDescription(level)` (final revision):
`descriptions[level] || descriptions[3]`. -/
def getRiskDescription (level : Int) : String :=
  if level = 1 then "Generally safe conditions."
  else if level = 2 then "Heightened avalanche conditions on specific terrain features. Careful evaluation needed."
  else if level = 3 then "Dangerous avalanche conditions. Careful snowpack evaluation required."
  else if level = 4 then "Very dangerous conditions. Travel in avalanche terrain not recommended."
  else if level = 5 then "Extraordinary conditions. Avoid all avalanche terrain."
  else "Dangerous avalanche conditions. Careful snowpack evaluation required."

/-- `generateDetailedSummary(overall, high, low)` (final revision):
`summaries[overall] || summaries[3]`, plus a high-elevation sentence when
`high > low`, plus a closing sentence. -/
def generateDetailedSummary (overall high low : Int) : String :=
  let base :=
    if overall = 1 then "Low avalanche risk across all elevations. Snow is generally well bonded and stable. Natural avalanches are unlikely. Human-triggered avalanches are possible only in isolated areas on very steep terrain."
    else if overall = 2 then "Moderate avalanche risk. Unstable snow exists in specific areas, particularly on steep slopes at higher elevations. Careful route selection and snowpack evaluation are recommended. Natural avalanches are unlikely, but human-triggered avalanches are possible."
    else if overall = 3 then "Considerable avalanche risk. Dangerous avalanche conditions exist on many slopes, especially at higher elevations. Careful snowpack evaluation, cautious route-finding, and conservative decision-making are essential. Natural avalanches are possible, and human-triggered avalanches are likely in many areas."
    else if overall = 4 then "High avalanche risk. Very dangerous avalanche conditions across most terrain. Natural and human-triggered avalanches are likely on many slopes. Travel in avalanche terrain should be avoided. Only experts with extensive experience should consider backcountry travel."
    else if overall = 5 then "Very high avalanche risk. Extraordinary avalanche situation with widespread instability. Large natural avalanches are expected. All avalanche terrain should be avoided, regardless of experience level."
    else "Considerable avalanche risk. Dangerous avalanche conditions exist on many slopes, especially at higher elevations. Careful snowpack evaluation, cautious route-finding, and conservative decision-making are essential. Natural avalanches are possible, and human-triggered avalanches are likely in many areas."
  let base :=
    if high > low then
      base ++ " Conditions are particularly dangerous at higher elevations (above 2500m) where the risk is elevated to level " ++ toString high ++ "."
    else base
  base ++ " Always check the official Météo-France bulletin before heading into the backcountry."

/-- `generateElevationBands(highRisk, lowRisk)` (final revision). -/
def generateElevationBands (highRisk lowRisk : Int) : List ElevationBand :=
  [ { elevation := "Above 2500m"
      risk := highRisk
      aspects := if 3 ≤ highRisk then ["N", "NE", "E", "NW"] else ["N", "NE"]
      description := getRiskDescription highRisk ++ " Wind-loaded slopes and shaded aspects are most critical." }
  , { elevation := "2000m - 2500m"
      risk := max (highRisk - 1) lowRisk
      aspects := ["N", "NE", "E"]
      description := getRiskDescription (max (highRisk - 1) lowRisk) ++ " Evaluate conditions carefully on steep north-facing terrain." }
  , { elevation := "Below 2000m"
      risk := lowRisk
      aspects := if 3 ≤ lowRisk then ["All"] else ["S", "SE", "SW"]
      description := getRiskDescription lowRisk ++ (if 2 ≤ lowRisk then " Warming temperatures may cause wet snow instabilities on sunny slopes." else "") } ]

/-- `generateProblems(riskLevel)` (final revision): conditional pushes for
Wind Slab (≥2), Persistent Weak Layers (≥3), Wet Snow (≥2); a
"Generally stable conditions" placeholder when nothing was pushed. -/
def generateProblems (riskLevel : Int) : List Problem :=
  let problems : List Problem :=
    (if 2 ≤ riskLevel then
      [ { type := "Wind Slab"
          severity := if 3 ≤ riskLevel then "High" else "Moderate"
          distribution := if 3 ≤ riskLevel then "Widespread above 2200m" else "Specific lee slopes above 2500m"
          sensitivity := if 4 ≤ riskLevel then "Very High - remote triggering possible"
                         else if 3 ≤ riskLevel then "High - easily triggered by skiers"
                         else "Moderate - triggering possible with high additional load"
          icon := "💨" } ]
     else []) ++
    (if 3 ≤ riskLevel then
      [ { type := "Persistent Weak Layers"
          severity := if 4 ≤ riskLevel then "High" else "Moderate"
          distribution := "Specific aspects, particularly shaded slopes"
          sensitivity := if 4 ≤ riskLevel then "High - persistent problem requiring careful evaluation"
                         else "Moderate - identifiable with snowpack tests"
          icon := "⚠️" } ]
     else []) ++
    (if 2 ≤ riskLevel then
      [ { type := "Wet Snow"
          severity := "Low to Moderate"
          distribution := "Sunny aspects below 2500m, especially in afternoon"
          sensitivity := "Increases with warming temperatures and solar radiation"
          icon := "💧" } ]
     else [])
  if problems.length > 0 then problems
  else
    [ { type := "Generally stable conditions"
        severity := "Low"
        distribution := "Most terrain"
        sensitivity := "Low"
        icon := "✔" } ]

/-- `generateSnowpackInfo(riskLevel)` (final revision). -/
def generateSnowpackInfo (riskLevel : Int) : Snowpack :=
  { recentSnow := if 3 ≤ riskLevel then "Significant recent snowfall (20-40cm in last 48h)"
                  else if 2 ≤ riskLevel then "Moderate recent snowfall (10-20cm)"
                  else "Minimal recent snowfall"
    totalDepth := "Depth varies by elevation: 180-220cm at 2500m, less at lower elevations"
    quality := if 3 ≤ riskLevel then "Wind-affected and variable at higher elevations. Surface hoar and weak layers present in some areas."
               else if 2 ≤ riskLevel then "Generally well-bonded with some wind effect at ridgelines"
               else "Well-consolidated and stable across most elevations" }

/-- `generateWeatherInfo(riskLevel)` (final revision). -/
def generateWeatherInfo (riskLevel : Int) : WeatherNarrative :=
  { forecast := if 3 ≤ riskLevel then "Unsettled conditions with periods of snowfall. Strong winds at altitude."
                else if 2 ≤ riskLevel then "Variable conditions with occasional snow showers possible"
                else "Generally stable weather with improving conditions"
    temperature := "Cold at altitude (-8°C to -12°C at 2500m). Gradual warming trend expected in coming days."
    wind := if 3 ≤ riskLevel then "Strong NW winds 60-80 km/h at ridgelines, causing significant snow transport"
            else if 2 ≤ riskLevel then "Moderate winds 30-50 km/h, some snow transport at exposed areas"
            else "Light to moderate winds, minimal snow transport" }

/-- `generateTendency(riskLevel)` (final revision). -/
def generateTendency (riskLevel : Int) : String :=
  if 4 ≤ riskLevel then "Risk will remain high over the next 24-48 hours. Gradual improvement expected after mid-week as snowfall decreases and snowpack begins to consolidate."
  else if 3 ≤ riskLevel then "Risk will gradually decrease over the next 48 hours as new snow consolidates and winds diminish. Continue to exercise caution and monitor conditions closely."
  else if 2 ≤ riskLevel then "Conditions expected to gradually improve as recent snow stabilizes. Continued monitoring recommended, especially on steep shaded slopes."
  else "Conditions expected to remain generally stable. Standard precautions apply for backcountry travel."

/-- `translateRiskDescription(level)` (second revision):
`descriptions[level] || descriptions[3]`. -/
def translateRiskDescription (level : Int) : String :=
  if level = 1 then "Generally safe conditions. Natural avalanches unlikely."
  else if level = 2 then "Heightened avalanche conditions on specific terrain. Careful evaluation needed."
  else if level = 3 then "Dangerous avalanche conditions. Careful snowpack evaluation required."
  else if level = 4 then "Very dangerous conditions. Travel in avalanche terrain not recommended."
  else if level = 5 then "Extraordinary avalanche situation. Avoid all avalanche terrain."
  else "Dangerous avalanche conditions. Careful snowpack evaluation required."

/-- `getDefaultElevationBands(riskLevel)` (second revision): bands
`min(r+1,5)`, `r`, `max(r-1,1)` from high to low altitude. -/
def getDefaultElevationBands (riskLevel : Int) : List ElevationBand :=
  [ { elevation := "Above 2500m"
      risk := min (riskLevel + 1) 5
      aspects := ["N", "NE", "E", "NW"]
      description := translateRiskDescription (min (riskLevel + 1) 5) }
  , { elevation := "2000m - 2500m"
      risk := riskLevel
      aspects := ["N", "NE", "E"]
      description := translateRiskDescription riskLevel }
  , { elevation := "Below 2000m"
      risk := max (riskLevel - 1) 1
      aspects := ["S", "SE", "SW", "W"]
      description := translateRiskDescription (max (riskLevel - 1) 1) } ]

/-- Auxiliary scan: does `sub` occur as a contiguous run in the list? -/
def jsIncludesAux (sub : List Char) : List Char → Bool
  | [] => sub.isEmpty
  | c :: rest => List.isPrefixOf sub (c :: rest) || jsIncludesAux sub rest

/-- JS `text.includes(sub)`: substring containment. -/
def jsIncludes (text sub : String) : Bool :=
  jsIncludesAux sub.data text.data

/-- JS `.toLowerCase()`, over the underlying character list (ASCII case
folding as in `Char.toLower`; accented characters are unchanged, as in
the source texts). -/
def jsToLower (s : String) : String :=
  String.mk (s.data.map Char.toLower)

/-- The risk-level resolution of `scrapeMeteoFranceWeb($)` (second
revision): lowercase the concatenated selector text, then check the
keyword vocabulary from the highest severity downwards; `riskLevel`
starts at 3, so an unrecognized text yields 3. -/
def scrapeWebRiskLevel (riskTextRaw : String) : Int :=
  let riskText := jsToLower riskTextRaw
  if jsIncludes riskText "4" || jsIncludes riskText "fort" then 4
  else if jsIncludes riskText "3" || jsIncludes riskText "marqué" then 3
  else if jsIncludes riskText "2" || jsIncludes riskText "limité" then 2
  else if jsIncludes riskText "1" || jsIncludes riskText "faible" then 1
  else 3

/-- `extractOverallRisk($)` (first revision): same scan with the word
checked before the digit at each level, returning 3 by default. -/
def extractOverallRisk (riskTextRaw : String) : Int :=
  let riskText := jsToLower riskTextRaw
  if jsIncludes riskText "fort" || jsIncludes riskText "4" then 4
  else if jsIncludes riskText "marqué" || jsIncludes riskText "3" then 3
  else if jsIncludes riskText "limité" || jsIncludes riskText "2" then 2
  else if jsIncludes riskText "faible" || jsIncludes riskText "1" then 1
  else 3

/-- The fields of the Météo-France XML document read by the final
revision's avalanche handler: the `RISQUE` element's `LOC1` / `LOC2`
integer attributes (`none` when the attribute is absent, in which case
`parseInt(attr || dflt)` applies the default) and the `DateValidite`
text (`none` when empty). -/
structure AvalancheXml where
  loc1Attr : Option Int
  loc2Attr : Option Int
  dateValidite : Option String
deriving DecidableEq

/-- The bulletin built by the XML branch of `/api/avalanche/vanoise`
(final revision): `loc1 = parseInt(LOC1 || 3)` is the high-altitude
risk, `loc2 = parseInt(LOC2 || 2)` the low-altitude risk,
`overallRisk = Math.max(loc1, loc2)`. -/
def avalancheBulletinFromXml (now : Int) (x : AvalancheXml) : Bulletin :=
  let loc1 := x.loc1Attr.getD 3
  let loc2 := x.loc2Attr.getD 2
  let overallRisk := max loc1 loc2
  { massif := "Vanoise"
    updateTime := now
    validUntil := match x.dateValidite with
      | some s => s
      | none => toString (now + 24 * 60 * 60 * 1000)
    overallRisk := overallRisk
    summary := generateDetailedSummary overallRisk loc1 loc2
    elevationBands := generateElevationBands loc1 loc2
    problems := generateProblems overallRisk
    snowpack := generateSnowpackInfo overallRisk
    weather := generateWeatherInfo overallRisk
    tendency := generateTendency overallRisk
    source := "https://meteofrance.com/meteo-montagne/alpes-du-nord/risques-avalanche"
    dataSource := "Météo-France XML (Risk levels) + Enhanced descriptions"
    note := some "Risk levels from Météo-France. Visit the official bulletin for complete details including snowpack analysis and weather forecast."
    error := none }

/-- `getFallbackBulletin()` (final revision): the synthesized bulletin
returned by the avalanche endpoint's catch block. -/
def getFallbackBulletin (now : Int) : Bulletin :=
  { massif := "Vanoise"
    updateTime := now
    validUntil := toString (now + 24 * 60 * 60 * 1000)
    overallRisk := 3
    summary := "Unable to fetch current data from Météo-France. Please visit the official bulletin for today\x27s avalanche forecast. As a general guideline, exercise considerable caution in the backcountry."
    elevationBands := generateElevationBands 3 2
    problems := generateProblems 3
    snowpack := { recentSnow := "Check Météo-France for current snowfall data"
                  totalDepth := "Variable by location and elevation"
                  quality := "Refer to official bulletin for snowpack analysis" }
    weather := { forecast := "See Météo-France for current mountain weather forecast"
                 temperature := "Refer to official forecast"
                 wind := "Check current conditions on Météo-France" }
    tendency := "Monitor daily bulletins from Météo-France for trend information"
    source := "https://meteofrance.com/meteo-montagne/alpes-du-nord/risques-avalanche"
    dataSource := "Fallback - Unable to connect to Météo-France"
    note := some "⚠️ This is fallback data. Always consult the official Météo-France bulletin before backcountry travel."
    error := some "Connection to Météo-France failed. Please check the official bulletin." }

/-- Outcome of the avalanche handler's single outbound attempt (the
final revision only fetches the XML bulletin; its inner catch
rethrows): success carries the parsed document, failure stands for any
axios/parse error. -/
inductive FetchOutcome where
  | success (xml : AvalancheXml)
  | failure
deriving DecidableEq

/-- One observable step of the avalanche endpoint: HTTP status, JSON
body, resulting cache slot, and whether an outbound request was made. -/
structure AvalancheResult where
  status : Nat
  body : Bulletin
  cacheAfter : CacheEntry Bulletin
  fetched : Bool
deriving DecidableEq

/-- `cache.avalanche` at process start: `{ data: null, timestamp: null }`. -/
def avalancheCacheInit : CacheEntry Bulletin := ⟨none, none⟩

/-- The `/api/avalanche/vanoise` handler of the final revision as a
transition function: cache hit returns the cached payload with no
fetch; on a miss the XML fetch either succeeds (bulletin built, stored,
returned) or throws, in which case the catch block returns
`getFallbackBulletin()` WITHOUT writing the cache.  Every path responds
with HTTP 200. -/
def avalancheHandler (c : CacheEntry Bulletin) (now : Int) (o : FetchOutcome) :
    AvalancheResult :=
  match cacheHit c now with
  | some b => { status := 200, body := b, cacheAfter := c, fetched := false }
  | none =>
    match o with
    | .success x =>
      let b := avalancheBulletinFromXml now x
      { status := 200, body := b
        cacheAfter := { data := some b, timestamp := some now }, fetched := true }
    | .failure =>
      { status := 200, body := getFallbackBulletin now, cacheAfter := c, fetched := true }

/-- Whether the warnings handler's try block runs to completion or an
exception reaches the catch block.  (In the final revision the try
block performs no outbound call, so `raised` is unreachable in
practice; it is embedded because the catch block exists in the source.) -/
inductive WarnOutcome where
  | ok
  | raised
deriving DecidableEq

/-- One observable step of the warnings endpoint. -/
structure WarningsResult where
  status : Nat
  body : WarningsResource
  cacheAfter : CacheEntry WarningsResource
deriving DecidableEq

/-- `cache.warnings` at process start. -/
def warningsCacheInit : CacheEntry WarningsResource := ⟨none, none⟩

/-- The `/api/warnings/savoie` handler of the final revision: cache hit
returns the cached resource; otherwise the try block builds a resource
with an EMPTY alerts list and stores it; the catch block responds with
an empty-alerts resource without the note and does not store. -/
def warningsHandler (c : CacheEntry WarningsResource) (now : Int) (o : WarnOutcome) :
    WarningsResult :=
  match cacheHit c now with
  | some w => { status := 200, body := w, cacheAfter := c }
  | none =>
    match o with
    | .ok =>
      let w : WarningsResource :=
        { department := "Savoie"
          updateTime := now
          alerts := []
          source := "https://vigilance.meteofrance.fr/fr/savoie"
          note := some "Check Météo-France Vigilance for current weather warnings" }
      { status := 200, body := w, cacheAfter := { data := some w, timestamp := some now } }
    | .raised =>
      { status := 200
        body := { department := "Savoie"
                  updateTime := now
                  alerts := []
                  source := "https://vigilance.meteofrance.fr/fr/savoie"
                  note := none }
        cacheAfter := c }

/-- Cache states of the warnings slot reachable in the final revision:
the initial empty slot, plus anything the handler itself writes. -/
inductive WarningsCacheReachable : CacheEntry WarningsResource → Prop where
  | init : WarningsCacheReachable warningsCacheInit
  | step (c : CacheEntry WarningsResource) (now : Int) (o : WarnOutcome) :
      WarningsCacheReachable c → WarningsCacheReachable (warningsHandler c now o).cacheAfter

/-- `estimateAvalancheRisk(snowfall, windSpeed, temp)` (final revision):
a mutable `risk` string threaded through three rule blocks. -/
def estimateAvalancheRisk (snowfall windSpeed temp : ℚ) : String :=
  let risk := "low"
  let risk := if snowfall > 20 then "considerable"
              else if snowfall > 10 then "moderate"
              else risk
  let risk := if windSpeed > 40 then
                (if risk = "moderate" then "considerable"
                 else if risk = "low" then "moderate"
                 else risk)
              else risk
  let risk := if temp > 0 ∧ snowfall > 5 then
                (if risk = "low" then "moderate" else risk)
              else risk
  risk

/-- The reshaped extended-forecast payload.  Its per-day construction
from the upstream arrays is out of core scope (spec §1, §6); only the
fields needed to state the endpoint's status/error contract are kept,
and the daily reshaping is abstracted into the fetched value itself. -/
structure ForecastResource where
  forecastDays : Int
  updateTime : Int
  source : String
deriving DecidableEq

/-- Outcome of the Open-Meteo fetch: the reshaped resource on success,
or the thrown error's `message` on failure. -/
inductive ForecastOutcome where
  | success (f : ForecastResource)
  | failure (message : String)
deriving DecidableEq

/-- Body of an extended-forecast response: the payload, or the catch
block's `{ error, message }` object. -/
inductive ForecastBody where
  | payload (f : ForecastResource)
  | failureBody (error : String) (message : String)
deriving DecidableEq

/-- `cache.extendedForecast`: a cache slot extended with the
`cacheKey` recording the coordinates/day-count of the stored payload. -/
structure ForecastCache where
  data : Option ForecastResource
  timestamp : Option Int
  cacheKey : Option String
deriving DecidableEq

/-- `cache.extendedForecast` at process start. -/
def forecastCacheInit : ForecastCache := ⟨none, none, none⟩

/-- `isCacheValid(cache.extendedForecast) && cache.extendedForecast.cacheKey === cacheKey`,
returning the cached payload on a hit. -/
def forecastCacheHit (c : ForecastCache) (now : Int) (key : String) :
    Option ForecastResource :=
  if isCacheValid (⟨c.data, c.timestamp⟩ : CacheEntry ForecastResource) now
      && (c.cacheKey == some key) then c.data
  else none

/-- One observable step of the extended-forecast endpoint. -/
structure ForecastResult where
  status : Nat
  body : ForecastBody
  cacheAfter : ForecastCache
deriving DecidableEq

/-- The `/api/forecast/extended` handler of the final revision: cache
hit (same key) returns the cached payload; a successful fetch stores
and returns the payload with HTTP 200; the catch block responds with
HTTP 500 and `{ error: 'Failed to fetch extended forecast', message }`. -/
def forecastHandler (c : ForecastCache) (now : Int) (key : String) (o : ForecastOutcome) :
    ForecastResult :=
  match forecastCacheHit c now key with
  | some f => { status := 200, body := .payload f, cacheAfter := c }
  | none =>
    match o with
    | .success f =>
      { status := 200, body := .payload f
        cacheAfter := { data := some f, timestamp := some now, cacheKey := some key } }
    | .failure msg =>
      { status := 500, body := .failureBody "Failed to fetch extended forecast" msg
        cacheAfter := c }

/-! ## Helper lemmas -/

/-- A cache hit returns exactly the stored payload. -/
theorem cacheHit_eq_some_data {α : Type} (c : CacheEntry α) (now : Int) (w : α)
    (h : cacheHit c now = some w) : c.data = some w := by
  unfold cacheHit at h
  split at h
  · exact h
  · exact absurd h (by simp)

/-- Every warnings payload ever stored in a reachable warnings cache
slot has an empty alerts list. -/
theorem warningsReachable_alerts_empty (c : CacheEntry WarningsResource)
    (hc : WarningsCacheReachable c) :
    ∀ w, c.data = some w → w.alerts = [] := by
  induction hc with
  | init =>
    intro w hw
    exact absurd hw (by simp [warningsCacheInit])
  | step c now o hprev ih =>
    intro w hw
    rcases h : cacheHit c now with _ | v
    · cases o with
      | ok =>
        unfold warningsHandler at hw
        rw [h] at hw
        injection hw with hw2
        subst hw2
        rfl
      | raised =>
        unfold warningsHandler at hw
        rw [h] at hw
        exact ih w hw
    · unfold warningsHandler at hw
      rw [h] at hw
      exact ih w hw

/-! ## Claim theorems -/

/-- C1 counterexample: with an empty cache, a failed acquisition at time
1000 returns the fallback bulletin but leaves the cache empty, and the
next request (time 2000, well inside the 6-hour TTL) performs a new
outbound fetch — refuting the claim that the fallback bulletin is stored
in the freshness cache. -/
theorem fallback_not_stored_cex :
    (avalancheHandler avalancheCacheInit 1000 FetchOutcome.failure).body = getFallbackBulletin 1000 ∧
    (avalancheHandler avalancheCacheInit 1000 FetchOutcome.failure).cacheAfter = avalancheCacheInit ∧
    (avalancheHandler (avalancheHandler avalancheCacheInit 1000 FetchOutcome.failure).cacheAfter
        2000 FetchOutcome.failure).fetched = true :=
  ⟨rfl, rfl, rfl⟩

/-- C1 amended: when the pipeline reaches the fallback state, the
synthesized fallback bulletin is returned (HTTP 200) WITHOUT being
stored in the freshness cache — the catch block never writes the cache,
so a subsequent request within the TTL window performs a new outbound
fetch. -/
theorem fallback_leaves_cache_unchanged (c : CacheEntry Bulletin) (now now2 : Int)
    (o : FetchOutcome) :
    (avalancheHandler c now FetchOutcome.failure).cacheAfter = c ∧
    (avalancheHandler avalancheCacheInit now FetchOutcome.failure).body = getFallbackBulletin now ∧
    (avalancheHandler avalancheCacheInit now FetchOutcome.failure).status = 200 ∧
    (avalancheHandler avalancheCacheInit now2 o).fetched = true := by
  refine ⟨?_, rfl, rfl, ?_⟩
  · unfold avalancheHandler
    rcases h : cacheHit c now with _ | b <;> rfl
  · cases o <;> rfl

/-- C2 counterexample: two calls 1000 ms apart (far inside the TTL) with
the upstream failing both times perform TWO outbound fetch sequences,
because the fallback result is never cached; moreover a stored entry
with timestamp 0 and a fresh payload is a cache MISS (JS `!timestamp`),
refuting the claimed characterisation of hits. -/
theorem cache_idempotence_cex :
    ((2000 : Int) - 1000 < CACHE_DURATION) ∧
    (avalancheHandler avalancheCacheInit 1000 FetchOutcome.failure).fetched = true ∧
    (avalancheHandler (avalancheHandler avalancheCacheInit 1000 FetchOutcome.failure).cacheAfter
        2000 FetchOutcome.failure).fetched = true ∧
    isCacheValid (⟨some (getFallbackBulletin 5), some 0⟩ : CacheEntry Bulletin) 1 = false ∧
    ((1 : Int) - 0 < CACHE_DURATION) :=
  ⟨by decide, rfl, rfl, rfl, by decide⟩

/-- C2 amended: a lookup is a hit iff the entry holds a payload and a
NONZERO timestamp with `now - timestamp < CACHE_DURATION` (6 h); and
when the first call's fetch succeeds (at a nonzero instant), a second
call within the TTL window performs no outbound fetch and returns the
identical cached payload.  (When the first call falls back, nothing is
stored and the second call fetches again — see the counterexample.) -/
theorem cache_hit_iff_and_idempotence (c : CacheEntry Bulletin) (now1 now2 : Int)
    (x : AvalancheXml) (o : FetchOutcome)
    (h0 : now1 ≠ 0) (hTTL : now2 - now1 < CACHE_DURATION) :
    (isCacheValid c now2 = true ↔
      ∃ b t, c.data = some b ∧ c.timestamp = some t ∧ t ≠ 0 ∧ now2 - t < CACHE_DURATION) ∧
    ((avalancheHandler (avalancheHandler avalancheCacheInit now1 (FetchOutcome.success x)).cacheAfter
        now2 o).fetched = false ∧
     (avalancheHandler (avalancheHandler avalancheCacheInit now1 (FetchOutcome.success x)).cacheAfter
        now2 o).body =
       (avalancheHandler avalancheCacheInit now1 (FetchOutcome.success x)).body) := by
  constructor
  · rcases c with ⟨d, ts⟩
    cases d <;> cases ts <;> simp [isCacheValid, bne_iff_ne]
  · have hcell : (avalancheHandler avalancheCacheInit now1 (FetchOutcome.success x)).cacheAfter
        = ⟨some (avalancheBulletinFromXml now1 x), some now1⟩ := rfl
    have hvalid : isCacheValid
        (⟨some (avalancheBulletinFromXml now1 x), some now1⟩ : CacheEntry Bulletin) now2 = true := by
      simp [isCacheValid, bne_iff_ne, h0, hTTL]
    have hhit : cacheHit
        (⟨some (avalancheBulletinFromXml now1 x), some now1⟩ : CacheEntry Bulletin) now2
        = some (avalancheBulletinFromXml now1 x) := by
      unfold cacheHit
      rw [hvalid]
      rfl
    rw [hcell]
    unfold avalancheHandler
    rw [hhit]
    exact ⟨rfl, rfl⟩

/-- C2 witness: concrete instantiation of the amended cache theorem at
a successful fetch at time 1000 followed by a call at time 2000. -/
theorem cache_hit_iff_and_idempotence_witness :
    (avalancheHandler (avalancheHandler avalancheCacheInit 1000
        (FetchOutcome.success (AvalancheXml.mk (some 4) (some 2) none))).cacheAfter
      2000 FetchOutcome.failure).fetched = false :=
  (cache_hit_iff_and_idempotence ⟨none, none⟩ 1000 2000
    (AvalancheXml.mk (some 4) (some 2) none) FetchOutcome.failure
    (by decide) (by decide)).2.1

/-- C3: the structured (XML) branch reads the two zone risks with
defaults 3 and 2, sets the overall risk to `max(high, low)` and the
mid-elevation band risk to `max(high - 1, low)`; in particular high=4,
low=2 gives overall 4 and band risks 4/3/2, and absent attributes give
overall 3 and band risks 3/2/2. -/
theorem structured_parser_risk_rules (now : Int) (x : AvalancheXml) :
    (avalancheBulletinFromXml now x).overallRisk = max (x.loc1Attr.getD 3) (x.loc2Attr.getD 2) ∧
    List.map (fun b => b.risk) (avalancheBulletinFromXml now x).elevationBands =
      [x.loc1Attr.getD 3, max (x.loc1Attr.getD 3 - 1) (x.loc2Attr.getD 2), x.loc2Attr.getD 2] ∧
    (avalancheBulletinFromXml now (AvalancheXml.mk (some 4) (some 2) none)).overallRisk = 4 ∧
    List.map (fun b => b.risk)
      (avalancheBulletinFromXml now (AvalancheXml.mk (some 4) (some 2) none)).elevationBands = [4, 3, 2] ∧
    (avalancheBulletinFromXml now (AvalancheXml.mk none none none)).overallRisk = 3 ∧
    List.map (fun b => b.risk)
      (avalancheBulletinFromXml now (AvalancheXml.mk none none none)).elevationBands = [3, 2, 2] :=
  ⟨rfl, rfl, rfl, rfl, rfl, rfl⟩

/-- C4 counterexample: for high=1, low=2 (both in [1,5]) the builder
returns band risks [1, 2, 2] — the risk INCREASES as elevation
decreases, refuting the claimed monotonicity for every pair in [1,5]. -/
theorem elevation_bands_monotonicity_cex :
    List.map (fun b => b.risk) (generateElevationBands 1 2) = [1, 2, 2] ∧
    ¬ List.Chain' (fun a b => b.risk ≤ a.risk) (generateElevationBands 1 2) := by
  constructor
  · rfl
  · intro hch
    simp only [generateElevationBands, List.chain'_cons, List.chain'_singleton, and_true] at hch
    omega

/-- C4 amended: for every pair in [1,5] the builder returns exactly 3
bands ordered high→mid→low altitude with every band risk in [1,5]; the
band risks are non-increasing with decreasing elevation PROVIDED
low ≤ high (otherwise the mid/low bands can exceed the high band, see
the counterexample).  The single-input builder of the second revision,
`getDefaultElevationBands`, satisfies all three properties for every
level in [1,5]. -/
theorem elevation_bands_shape_and_monotonicity (h l r : Int)
    (hh1 : 1 ≤ h) (hh5 : h ≤ 5) (hl1 : 1 ≤ l) (hl5 : l ≤ 5)
    (hr1 : 1 ≤ r) (hr5 : r ≤ 5) :
    (generateElevationBands h l).length = 3 ∧
    List.map (fun b => b.elevation) (generateElevationBands h l) =
      ["Above 2500m", "2000m - 2500m", "Below 2000m"] ∧
    (∀ b ∈ generateElevationBands h l, 1 ≤ b.risk ∧ b.risk ≤ 5) ∧
    (l ≤ h → List.Chain' (fun a b => b.risk ≤ a.risk) (generateElevationBands h l)) ∧
    (getDefaultElevationBands r).length = 3 ∧
    (∀ b ∈ getDefaultElevationBands r, 1 ≤ b.risk ∧ b.risk ≤ 5) ∧
    List.Chain' (fun a b => b.risk ≤ a.risk) (getDefaultElevationBands r) := by
  refine ⟨rfl, rfl, ?_, ?_, rfl, ?_, ?_⟩
  · intro b hb
    simp only [generateElevationBands, List.mem_cons, List.not_mem_nil, or_false] at hb
    rcases hb with rfl | rfl | rfl
    · exact ⟨hh1, hh5⟩
    · exact ⟨le_trans hl1 (le_max_right _ _), max_le (by omega) hl5⟩
    · exact ⟨hl1, hl5⟩
  · intro hlh
    simp only [generateElevationBands, List.chain'_cons, List.chain'_singleton, and_true]
    exact ⟨max_le (by omega) hlh, le_max_right _ _⟩
  · intro b hb
    simp only [getDefaultElevationBands, List.mem_cons, List.not_mem_nil, or_false] at hb
    rcases hb with rfl | rfl | rfl
    · exact ⟨le_min (by omega) (by norm_num), min_le_right _ _⟩
    · exact ⟨hr1, hr5⟩
    · exact ⟨le_max_right _ _, max_le (by omega) (by norm_num)⟩
  · simp only [getDefaultElevationBands, List.chain'_cons, List.chain'_singleton, and_true]
    exact ⟨le_min (by omega) hr5, max_le (by omega) hr1⟩

/-- C4 witness: the amended theorem instantiated at high=4, low=2,
default level 3. -/
theorem elevation_bands_shape_and_monotonicity_witness :
    (generateElevationBands 4 2).length = 3 :=
  (elevation_bands_shape_and_monotonicity 4 2 3 (by decide) (by decide) (by decide)
    (by decide) (by decide) (by decide)).1

/-- C5 counterexample: out-of-range inputs do NOT all take the level-3
branch: at level 0 the tendency generator yields its else-branch text
and the problems generator yields the placeholder list, both different
from the level-3 results; at level 6 the problems generator takes its
level-≥4 branch, also different from level 3. -/
theorem risk_engine_level3_fallback_cex :
    generateTendency 0 ≠ generateTendency 3 ∧
    generateProblems 0 ≠ generateProblems 3 ∧
    generateProblems 6 ≠ generateProblems 3 := by
  refine ⟨by decide, by decide, by decide⟩

/-- C5 amended: for every input outside [1,5] the dictionary-based
engine functions (`getRiskDescription`, `generateDetailedSummary`) fall
back to their level-3 branch; the threshold-based functions
(`generateProblems`, `generateSnowpackInfo`, `generateWeatherInfo`,
`generateTendency`) instead behave like level 1 for inputs below 1 and
like level 5 for inputs above 5; no function raises (all are total). -/
theorem risk_engine_out_of_range_behavior (level high low : Int)
    (hout : level < 1 ∨ 5 < level) :
    getRiskDescription level = getRiskDescription 3 ∧
    generateDetailedSummary level high low = generateDetailedSummary 3 high low ∧
    (level < 1 →
      generateProblems level = generateProblems 1 ∧
      generateSnowpackInfo level = generateSnowpackInfo 1 ∧
      generateWeatherInfo level = generateWeatherInfo 1 ∧
      generateTendency level = generateTendency 1) ∧
    (5 < level →
      generateProblems level = generateProblems 5 ∧
      generateSnowpackInfo level = generateSnowpackInfo 5 ∧
      generateWeatherInfo level = generateWeatherInfo 5 ∧
      generateTendency level = generateTendency 5) := by
  have h1 : level ≠ 1 := by rcases hout with h | h <;> omega
  have h2 : level ≠ 2 := by rcases hout with h | h <;> omega
  have h3 : level ≠ 3 := by rcases hout with h | h <;> omega
  have h4 : level ≠ 4 := by rcases hout with h | h <;> omega
  have h5 : level ≠ 5 := by rcases hout with h | h <;> omega
  refine ⟨?_, ?_, ?_, ?_⟩
  · simp [getRiskDescription, h1, h2, h3, h4, h5]
  · simp [generateDetailedSummary, h1, h2, h3, h4, h5]
  · intro hlt
    have g2 : ¬ (2 ≤ level) := by omega
    have g3 : ¬ (3 ≤ level) := by omega
    have g4 : ¬ (4 ≤ level) := by omega
    refine ⟨?_, ?_, ?_, ?_⟩ <;>
      simp [generateProblems, generateSnowpackInfo, generateWeatherInfo, generateTendency,
        g2, g3, g4]
  · intro hgt
    have g2 : (2 : Int) ≤ level := by omega
    have g3 : (3 : Int) ≤ level := by omega
    have g4 : (4 : Int) ≤ level := by omega
    refine ⟨?_, ?_, ?_, ?_⟩ <;>
      simp [generateProblems, generateSnowpackInfo, generateWeatherInfo, generateTendency,
        g2, g3, g4]

/-- C5 witness: the amended theorem instantiated at level 6 (with
high=4, low=2 for the summary arguments). -/
theorem risk_engine_out_of_range_behavior_witness :
    getRiskDescription 6 = getRiskDescription 3 :=
  (risk_engine_out_of_range_behavior 6 4 2 (Or.inr (by decide))).1

/-- C6: the heuristic keyword scan resolves 3 for text containing
"risque marqué", 4 for text containing "fort", and the default 3 when
no keyword matches; higher-severity keywords are checked first, so any
text whose lowercase form contains "fort" resolves to 4 even if lower
keywords also occur.  (Both the second revision's scan and the first
revision's `extractOverallRisk` are covered.) -/
theorem heuristic_keyword_scan :
    scrapeWebRiskLevel "risque marqué" = 3 ∧
    extractOverallRisk "risque marqué" = 3 ∧
    scrapeWebRiskLevel "risque fort" = 4 ∧
    extractOverallRisk "risque fort" = 4 ∧
    scrapeWebRiskLevel "bulletin neige" = 3 ∧
    extractOverallRisk "bulletin neige" = 3 ∧
    (∀ t : String, jsIncludes (jsToLower t) "fort" = true → scrapeWebRiskLevel t = 4) := by
  refine ⟨by decide, by decide, by decide, by decide, by decide, by decide, ?_⟩
  intro t h
  simp [scrapeWebRiskLevel, h]

/-- C6 witness: a text containing both "fort" and "marqué" resolves to
4, by the priority clause of the scan theorem. -/
theorem heuristic_keyword_scan_witness :
    scrapeWebRiskLevel "risque fort marqué" = 4 :=
  heuristic_keyword_scan.2.2.2.2.2.2 "risque fort marqué" (by decide)

/-- C7: the forecast avalanche-risk bucket returns "considerable" for
snowfall=25, wind=10, temp=-5 (the snowfall>20 rule) and "moderate" for
snowfall=5, wind=45, temp=-5 (the wind>40 rule escalates low to
moderate). -/
theorem forecast_risk_bucket_examples :
    estimateAvalancheRisk 25 10 (-5) = "considerable" ∧
    estimateAvalancheRisk 5 45 (-5) = "moderate" := by
  constructor <;> decide

/-- C8: for every cache state, time and fetch outcome, the avalanche
and warnings endpoints respond HTTP 200 with a (structured) JSON body,
never surfacing a transport error; the extended-forecast endpoint
responds 200 on success but, on upstream failure (cache miss), responds
HTTP 500 with a body carrying the `error` and `message` fields. -/
theorem endpoint_transport_error_contract (ca : CacheEntry Bulletin)
    (cw : CacheEntry WarningsResource) (cf : ForecastCache) (now : Int)
    (oa : FetchOutcome) (ow : WarnOutcome) (key : String)
    (f : ForecastResource) (msg : String)
    (hmiss : forecastCacheHit cf now key = none) :
    (avalancheHandler ca now oa).status = 200 ∧
    (warningsHandler cw now ow).status = 200 ∧
    (forecastHandler cf now key (ForecastOutcome.success f)).status = 200 ∧
    (forecastHandler cf now key (ForecastOutcome.failure msg)).status = 500 ∧
    (forecastHandler cf now key (ForecastOutcome.failure msg)).body =
      ForecastBody.failureBody "Failed to fetch extended forecast" msg := by
  refine ⟨?_, ?_, ?_, ?_, ?_⟩
  · unfold avalancheHandler
    rcases h : cacheHit ca now with _ | b
    · cases oa <;> rfl
    · rfl
  · unfold warningsHandler
    rcases h : cacheHit cw now with _ | w
    · cases ow <;> rfl
    · rfl
  · unfold forecastHandler
    rw [hmiss]
  · unfold forecastHandler
    rw [hmiss]
  · unfold forecastHandler
    rw [hmiss]

/-- C8 witness: the forecast endpoint's failure branch at a concrete
miss state yields HTTP 500. -/
theorem endpoint_transport_error_contract_witness :
    (forecastHandler forecastCacheInit 7 "45.4_6.57_7"
      (ForecastOutcome.failure "timeout of 10000ms exceeded")).status = 500 :=
  (endpoint_transport_error_contract avalancheCacheInit warningsCacheInit forecastCacheInit
    7 FetchOutcome.failure WarnOutcome.ok "45.4_6.57_7"
    (ForecastResource.mk 7 7 "Open-Meteo API") "timeout of 10000ms exceeded" rfl).2.2.2.1

/-- C9: for every snowfall, wind-speed and temperature input, the
forecast avalanche-risk bucket returns one of exactly "low", "moderate"
or "considerable" — in particular never "high". -/
theorem forecast_risk_bucket_range (snowfall windSpeed temp : ℚ) :
    (estimateAvalancheRisk snowfall windSpeed temp = "low" ∨
     estimateAvalancheRisk snowfall windSpeed temp = "moderate" ∨
     estimateAvalancheRisk snowfall windSpeed temp = "considerable") ∧
    estimateAvalancheRisk snowfall windSpeed temp ≠ "high" := by
  unfold estimateAvalancheRisk
  by_cases h1 : snowfall > 20 <;> by_cases h2 : snowfall > 10 <;>
    by_cases h3 : windSpeed > 40 <;> by_cases h4 : temp > 0 ∧ snowfall > 5 <;>
    simp [h1, h2, h3, h4]

/-- C10: in the final revision, the warnings endpoint returns a
resource whose alerts list is empty for every request, every fetch
outcome and every reachable cache state — the success path never
populates alerts either. -/
theorem warnings_alerts_always_empty (c : CacheEntry WarningsResource) (now : Int)
    (o : WarnOutcome) (hc : WarningsCacheReachable c) :
    (warningsHandler c now o).body.alerts = [] := by
  rcases h : cacheHit c now with _ | w
  · unfold warningsHandler
    rw [h]
    cases o <;> rfl
  · unfold warningsHandler
    rw [h]
    exact warningsReachable_alerts_empty c hc w (cacheHit_eq_some_data c now w h)

/-- C10 witness: the first request against the initial (empty,
reachable) cache returns an empty alerts list. -/
theorem warnings_alerts_always_empty_witness :
    (warningsHandler warningsCacheInit 5 WarnOutcome.ok).body.alerts = [] :=
  warnings_alerts_always_empty warningsCacheInit 5 WarnOutcome.ok WarningsCacheReachable.init
